import Mathlib

/-!
Shallow embedding of the strict contact-relay handler of `src/server.js`
(the second, strict variant of `app.post('/api/contact')`, lines 150-269),
together with the rate-limiter configuration (`contactLimiter`, lines 133-142).

External effects are modelled as oracle parameters: the outcome of the
Mailboxlayer verification request (`VerifyResult`) and the outcome of the
nodemailer `sendMail` call (`Except String Unit`, the error carrying
`error.message`).  The handler output records the HTTP response, whether the
verification request was issued, and the `mailOptions` passed to `sendMail`
(`none` when `sendMail` was never invoked).
-/

/-- The JSON result envelope `{ success, message }` returned to the caller. -/
structure Envelope where
  success : Bool
  message : String
deriving Repr, DecidableEq

/-- An HTTP response: status code plus JSON envelope body. -/
structure HttpResponse where
  status : Nat
  body : Envelope
deriving Repr, DecidableEq

/-- The request body `{ name, email, message }`; each field may be absent. -/
structure ContactRequest where
  name : Option String
  email : Option String
  message : Option String
deriving Repr, DecidableEq

/-- Environment configuration used by the strict handler.  A missing
environment variable is `none`; JavaScript also treats the empty string as
falsy, which the handler's guards reproduce via `Option.getD ""`. -/
structure Config where
  receiverEmail : Option String
  mailboxApiKey : Option String
  emailUser : Option String
deriving Repr, DecidableEq

/-- The fields of the Mailboxlayer JSON response consumed by the handler:
`error` (presence of an error object), `format_valid`, `mx_found`,
`smtp_check`, and the numeric `score` (absent when the API omits it; in
JavaScript `undefined < 0.3` evaluates to `false`). -/
structure VerificationData where
  error : Bool
  format_valid : Bool
  mx_found : Bool
  smtp_check : Bool
  score : Option ℚ
deriving Repr, DecidableEq

/-- Outcome of `axios.get(verificationUrl)`: either the request throws
(network failure / timeout), or it yields a parsed JSON body. -/
inductive VerifyResult where
  | failure
  | success (data : VerificationData)
deriving Repr, DecidableEq

/-- The `mailOptions` object handed to `transporter.sendMail`.  The source
fields `from` and `to` are Lean keywords, rendered here as `fromAddr` and
`toAddr`. -/
structure MailOptions where
  fromAddr : String
  toAddr : String
  replyTo : String
  subject : String
  text : String
  html : String
deriving Repr, DecidableEq

/-- Full observable outcome of one handler run: the HTTP response, whether
the verification HTTP request was issued, and the options passed to
`sendMail` (`none` when `sendMail` was not invoked). -/
structure HandlerOutcome where
  response : HttpResponse
  verifyCalled : Bool
  dispatched : Option MailOptions
deriving Repr, DecidableEq

/-- JavaScript `String.prototype.trim()`: strip leading and trailing
whitespace (stated over Lean's `Char.isWhitespace`; the inputs appearing in
the development are ASCII, where the two whitespace classes agree). -/
def jsTrim (s : String) : String :=
  String.mk (((s.data.dropWhile Char.isWhitespace).reverse.dropWhile
    Char.isWhitespace).reverse)

/-- A character admitted by the class `[^\s@]` of the handler's
`emailRegex`: neither whitespace nor `@`. -/
def isEmailChar (c : Char) : Bool :=
  !c.isWhitespace && c != '@'

/-- Split a character list at every occurrence of `@`. -/
def splitAtSign : List Char → List (List Char)
  | [] => [[]]
  | c :: cs =>
      match splitAtSign cs, decide (c = '@') with
      | rest, true => [] :: rest
      | r :: rs, false => (c :: r) :: rs
      | [], false => [[c]]

/-- The test of `emailRegex = /^[^\s@]+@[^\s@]+\.[^\s@]+$/` (`src/server.js`
line 167).  A string matches iff it splits as `local@domain` with exactly one
`@`, the local part a nonempty run of `[^\s@]` characters, and the domain a
nonempty run of `[^\s@]` characters containing a `.` that has at least one
character on each side. -/
def emailRegexTest (s : String) : Bool :=
  match splitAtSign s.data with
  | [localPart, domainPart] =>
      !localPart.isEmpty && localPart.all isEmailChar &&
      domainPart.all isEmailChar &&
      ((domainPart.drop 1).dropLast.contains '.')
  | _ => false

/-- The score threshold `0.3` of `src/server.js` line 220, written as the
rational `3/10` so that comparisons against it evaluate in the kernel;
`scoreThreshold_eq_literal` below checks it equals the literal `0.3`. -/
def scoreThreshold : ℚ := mkRat 3 10

/-- `data.score < 0.3` (`src/server.js` line 220): in JavaScript an absent
(`undefined`) score makes the comparison evaluate to `false`. -/
def scoreBelowThreshold : Option ℚ → Bool
  | none => false
  | some q => decide (q < scoreThreshold)

/-- The strict `app.post('/api/contact')` handler (`src/server.js` lines
150-269), with the two external calls supplied as oracles. -/
def handleContact (cfg : Config) (req : ContactRequest)
    (verify : VerifyResult) (sendResult : Except String Unit) : HandlerOutcome :=
  let name := jsTrim (req.name.getD "")
  let email := jsTrim (req.email.getD "")
  let message := jsTrim (req.message.getD "")
  if name = "" ∨ email = "" ∨ message = "" then
    ⟨⟨400, false, "All fields are required."⟩, false, none⟩
  else if !(emailRegexTest email) then
    ⟨⟨400, false, "Invalid email format."⟩, false, none⟩
  else if message.length > 2000 then
    ⟨⟨400, false, "Message is too long (limit 2000 chars)."⟩, false, none⟩
  else if cfg.receiverEmail.getD "" = "" then
    ⟨⟨500, false, "Server configuration error: No receiver email configured."⟩, false, none⟩
  else if cfg.mailboxApiKey.getD "" = "" then
    ⟨⟨500, false, "Server configuration error: Verification key missing."⟩, false, none⟩
  else
    match verify with
    | VerifyResult.failure =>
        ⟨⟨500, false, "Email verification failed. Please check your email or try again later."⟩,
          true, none⟩
    | VerifyResult.success data =>
        if data.error then
          ⟨⟨500, false, "Email verification service unavailable."⟩, true, none⟩
        else if !(data.format_valid && data.mx_found) then
          ⟨⟨400, false, "Email address appears invalid (MX record not found)."⟩, true, none⟩
        else if scoreBelowThreshold data.score then
          ⟨⟨400, false, "Email blocked by security score."⟩, true, none⟩
        else
          let mo : MailOptions :=
            { fromAddr := cfg.emailUser.getD ""
              toAddr := cfg.receiverEmail.getD ""
              replyTo := email
              subject := "Portfolio Contact: Message from " ++ name
              text := "You have received a new message from your portfolio contact form.\n\nName: "
                ++ name ++ "\nUser Email: " ++ email ++ "\n\nMessage:\n" ++ message
              html := "<h3>New Portfolio Message</h3><p><strong>Name:</strong> " ++ name
                ++ "</p><p><strong>Email:</strong> " ++ email
                ++ "</p><p><strong>Message:</strong><br/>" ++ message ++ "</p>" }
          match sendResult with
          | Except.ok _ =>
              ⟨⟨200, true, "Message sent successfully!"⟩, true, some mo⟩
          | Except.error e =>
              ⟨⟨500, false, "Internal server error: " ++ e⟩, true, some mo⟩

/-- `windowMs: 15 * 60 * 1000` of `contactLimiter` (`src/server.js` line 134). -/
def windowMs : Nat := 15 * 60 * 1000

/-- `max: 5` of `contactLimiter` (`src/server.js` line 135). -/
def maxRequests : Nat := 5

/-- The rate-limit envelope configured on `contactLimiter`
(`src/server.js` line 136). -/
def rateLimitEnvelope : Envelope :=
  ⟨false, "Too many requests, please try again later."⟩

/-- Per-caller-address limiter state: start of the current window (ms) and
the number of requests counted inside it. -/
structure LimiterState where
  windowStart : Nat
  count : Nat
deriving Repr, DecidableEq

/-- Modelled from the spec: the `express-rate-limit` middleware applied to
`/api/contact` is a third-party dependency whose code is not under `src/`;
only its configuration (`windowMs`, `max`, `message`) is.  Following the
spec, requests from one caller address are counted in a fixed window of
`windowMs` milliseconds: a request past the window's end resets the counter,
and a request inside the window increments it and is limited when the count
exceeds `maxRequests`. -/
def limiterStep : Option LimiterState → Nat → LimiterState × Bool
  | none, now => (⟨now, 1⟩, decide (1 > maxRequests))
  | some st, now =>
      if st.windowStart + windowMs ≤ now then
        (⟨now, 1⟩, decide (1 > maxRequests))
      else
        (⟨st.windowStart, st.count + 1⟩, decide (st.count + 1 > maxRequests))

/-- The `/api/contact` route as seen by a caller: the limiter middleware runs
first and answers with the configured envelope when the request is limited
(express-rate-limit's default status 429), otherwise the handler runs. -/
def contactEndpoint (limited : Bool) (cfg : Config) (req : ContactRequest)
    (verify : VerifyResult) (sendResult : Except String Unit) : HttpResponse :=
  if limited then ⟨429, rateLimitEnvelope⟩
  else (handleContact cfg req verify sendResult).response

/-- Run the limiter over a sequence of request arrival times (ms) for one
caller address, returning the final state and, per request, whether that
request was rate-limited. -/
def limiterRun : Option LimiterState → List Nat → Option LimiterState × List Bool
  | st, [] => (st, [])
  | st, t :: ts =>
      let step := limiterStep st t
      let rest := limiterRun (some step.1) ts
      (rest.1, step.2 :: rest.2)

theorem scoreThreshold_eq_literal : scoreThreshold = (0.3 : ℚ) := by
  norm_num [scoreThreshold, Rat.mkRat_eq_div]

example : emailRegexTest "ann@example.com" = true := by decide
example : emailRegexTest "ann@example" = false := by decide
example : emailRegexTest "a b@example.com" = false := by decide
example : emailRegexTest "a@b@c.com" = false := by decide
example : emailRegexTest "a@.com" = false := by decide
example : emailRegexTest "a@b.c.d" = true := by decide
example : emailRegexTest "a@b." = false := by decide

example :
    handleContact ⟨some "r@x.co", some "k", some "u"⟩
      ⟨some "Ann", some "ann@example.com", some "Hi"⟩
      (VerifyResult.success ⟨false, true, true, true, some (mkRat 9 10)⟩)
      (Except.ok ()) =
    ⟨⟨200, true, "Message sent successfully!"⟩, true,
      some ⟨"u", "r@x.co", "ann@example.com", "Portfolio Contact: Message from Ann",
        "You have received a new message from your portfolio contact form.\n\nName: Ann\nUser Email: ann@example.com\n\nMessage:\nHi",
        "<h3>New Portfolio Message</h3><p><strong>Name:</strong> Ann</p><p><strong>Email:</strong> ann@example.com</p><p><strong>Message:</strong><br/>Hi</p>"⟩⟩ := by
  decide

/-- C5: a submission in which `name`, `email`, or `message` is empty after
trimming (absent fields included) is answered with status 400 and the
envelope `{ success: false, message: "All fields are required." }`, and
neither the verification request nor the mail dispatch is issued. -/
theorem contact_missing_fields (cfg : Config) (req : ContactRequest)
    (verify : VerifyResult) (send : Except String Unit)
    (h : jsTrim (req.name.getD "") = "" ∨ jsTrim (req.email.getD "") = "" ∨
      jsTrim (req.message.getD "") = "") :
    handleContact cfg req verify send =
      ⟨⟨400, false, "All fields are required."⟩, false, none⟩ := by
  simp only [handleContact]
  rw [if_pos h]

/-- Witness for C5 at a concrete submission with an absent email field. -/
theorem contact_missing_fields_witness :
    handleContact ⟨some "r@x.co", some "k", some "u"⟩
      ⟨some "Ann", none, some "Hi"⟩ VerifyResult.failure (Except.ok ()) =
      ⟨⟨400, false, "All fields are required."⟩, false, none⟩ :=
  contact_missing_fields _ _ _ _ (Or.inr (Or.inl (by decide)))

/-- C6: a submission with non-empty trimmed fields whose trimmed email fails
the `emailRegex` test is answered with status 400 and the envelope
`{ success: false, message: "Invalid email format." }`, before any external
call. -/
theorem contact_invalid_email (cfg : Config) (req : ContactRequest)
    (verify : VerifyResult) (send : Except String Unit)
    (hn : jsTrim (req.name.getD "") ≠ "")
    (he : jsTrim (req.email.getD "") ≠ "")
    (hm : jsTrim (req.message.getD "") ≠ "")
    (hf : emailRegexTest (jsTrim (req.email.getD "")) = false) :
    handleContact cfg req verify send =
      ⟨⟨400, false, "Invalid email format."⟩, false, none⟩ := by
  simp only [handleContact]
  rw [if_neg (by simp [hn, he, hm]), if_pos (by simp [hf])]

/-- Witness for C6 at a concrete submission whose email lacks a dot in the
domain part. -/
theorem contact_invalid_email_witness :
    handleContact ⟨some "r@x.co", some "k", some "u"⟩
      ⟨some "Ann", some "ann@example", some "Hi"⟩ VerifyResult.failure
      (Except.ok ()) =
      ⟨⟨400, false, "Invalid email format."⟩, false, none⟩ :=
  contact_invalid_email _ _ _ _ (by decide) (by decide) (by decide) (by decide)

/-- C7: a submission passing the presence and email-format checks whose
trimmed message exceeds 2000 characters is answered with status 400 and the
length-limit envelope, before any external call. -/
theorem contact_message_too_long (cfg : Config) (req : ContactRequest)
    (verify : VerifyResult) (send : Except String Unit)
    (hn : jsTrim (req.name.getD "") ≠ "")
    (he : jsTrim (req.email.getD "") ≠ "")
    (hm : jsTrim (req.message.getD "") ≠ "")
    (hf : emailRegexTest (jsTrim (req.email.getD "")) = true)
    (hlen : (jsTrim (req.message.getD "")).length > 2000) :
    handleContact cfg req verify send =
      ⟨⟨400, false, "Message is too long (limit 2000 chars)."⟩, false, none⟩ := by
  simp only [handleContact]
  rw [if_neg (by simp [hn, he, hm]), if_neg (by simp [hf]), if_pos hlen]

theorem dropWhile_replicate_a (m : Nat) :
    (List.replicate m 'a').dropWhile Char.isWhitespace = List.replicate m 'a' := by
  cases m with
  | zero => rfl
  | succ k => simp [List.replicate_succ, List.dropWhile_cons]

theorem jsTrim_replicate_a (n : Nat) :
    jsTrim (String.mk (List.replicate n 'a')) = String.mk (List.replicate n 'a') := by
  simp [jsTrim, dropWhile_replicate_a, List.reverse_replicate]

theorem len_replicate_a (n : Nat) :
    (String.mk (List.replicate n 'a')).length = n := by
  simp [String.length]

theorem ne_empty_replicate_a (n : Nat) (hn : 0 < n) :
    String.mk (List.replicate n 'a') ≠ "" := by
  intro h
  have h2 : (String.mk (List.replicate n 'a')).length = 0 := by rw [h]; rfl
  rw [len_replicate_a] at h2
  omega

/-- Witness for C7 at a concrete submission whose message is 2001 characters
long. -/
theorem contact_message_too_long_witness :
    handleContact ⟨some "r@x.co", some "k", some "u"⟩
      ⟨some "Ann", some "ann@example.com", some (String.mk (List.replicate 2001 'a'))⟩
      VerifyResult.failure (Except.ok ()) =
      ⟨⟨400, false, "Message is too long (limit 2000 chars)."⟩, false, none⟩ :=
  contact_message_too_long _ _ _ _ (by decide) (by decide)
    (by simp only [Option.getD_some, jsTrim_replicate_a]
        exact ne_empty_replicate_a 2001 (by omega))
    (by decide)
    (by simp only [Option.getD_some, jsTrim_replicate_a, len_replicate_a]
        omega)

/-- C4 counterexample: with `RECEIVER_EMAIL` absent but the submission
failing field validation (absent name), the strict handler answers 400
"All fields are required.", not the 500 configuration error the claim
requires for every submission regardless of field validity. -/
theorem contact_missing_receiver_counterexample :
    (handleContact ⟨none, some "k", some "u"⟩
        ⟨none, some "ann@example.com", some "Hi"⟩ VerifyResult.failure
        (Except.ok ())).response =
      ⟨400, false, "All fields are required."⟩ ∧
    (handleContact ⟨none, some "k", some "u"⟩
        ⟨none, some "ann@example.com", some "Hi"⟩ VerifyResult.failure
        (Except.ok ())).response.status ≠ 500 := by
  decide

/-- C4 (amended): for a submission that passes the presence, email-format,
and length checks, if the configured recipient address is absent (or empty),
the strict handler answers status 500 with the configuration-error envelope,
and no external call is made. -/
theorem contact_missing_receiver (cfg : Config) (req : ContactRequest)
    (verify : VerifyResult) (send : Except String Unit)
    (hn : jsTrim (req.name.getD "") ≠ "")
    (he : jsTrim (req.email.getD "") ≠ "")
    (hm : jsTrim (req.message.getD "") ≠ "")
    (hf : emailRegexTest (jsTrim (req.email.getD "")) = true)
    (hlen : (jsTrim (req.message.getD "")).length ≤ 2000)
    (hrecv : cfg.receiverEmail.getD "" = "") :
    handleContact cfg req verify send =
      ⟨⟨500, false, "Server configuration error: No receiver email configured."⟩,
        false, none⟩ := by
  simp only [handleContact]
  rw [if_neg (by simp [hn, he, hm]), if_neg (by simp [hf]),
    if_neg (by omega), if_pos hrecv]

/-- Witness for the amended C4 at a concrete valid submission with
`RECEIVER_EMAIL` unset. -/
theorem contact_missing_receiver_witness :
    handleContact ⟨none, some "k", some "u"⟩
      ⟨some "Ann", some "ann@example.com", some "Hi"⟩ VerifyResult.failure
      (Except.ok ()) =
      ⟨⟨500, false, "Server configuration error: No receiver email configured."⟩,
        false, none⟩ :=
  contact_missing_receiver _ _ _ _ (by decide) (by decide) (by decide)
    (by decide) (by decide) (by decide)

/-- C2: for a submission passing field, format, length, and configuration
checks, a verification request that itself fails (network error or timeout)
makes the handler answer status 500 with a failure envelope, and `sendMail`
is never invoked. -/
theorem contact_verify_unreachable (cfg : Config) (req : ContactRequest)
    (send : Except String Unit)
    (hn : jsTrim (req.name.getD "") ≠ "")
    (he : jsTrim (req.email.getD "") ≠ "")
    (hm : jsTrim (req.message.getD "") ≠ "")
    (hf : emailRegexTest (jsTrim (req.email.getD "")) = true)
    (hlen : (jsTrim (req.message.getD "")).length ≤ 2000)
    (hrecv : cfg.receiverEmail.getD "" ≠ "")
    (hkey : cfg.mailboxApiKey.getD "" ≠ "") :
    handleContact cfg req VerifyResult.failure send =
      ⟨⟨500, false,
          "Email verification failed. Please check your email or try again later."⟩,
        true, none⟩ := by
  simp only [handleContact]
  rw [if_neg (by simp [hn, he, hm]), if_neg (by simp [hf]),
    if_neg (by omega), if_neg hrecv, if_neg hkey]

/-- Witness for C2 at a concrete valid, fully configured submission. -/
theorem contact_verify_unreachable_witness :
    handleContact ⟨some "r@x.co", some "k", some "u"⟩
      ⟨some "Ann", some "ann@example.com", some "Hi"⟩ VerifyResult.failure
      (Except.ok ()) =
      ⟨⟨500, false,
          "Email verification failed. Please check your email or try again later."⟩,
        true, none⟩ :=
  contact_verify_unreachable _ _ _ (by decide) (by decide) (by decide)
    (by decide) (by decide) (by decide) (by decide)

/-- C1: for a valid, fully configured submission whose verification response
reports no error, a valid format, a found mail exchange, and a score of at
least `0.3`, a successful dispatch yields status 200 with
`{ success: true, message: "Message sent successfully!" }`, and the
dispatched mail's recipient is the configured `RECEIVER_EMAIL` while its
`replyTo` is the submitted (trimmed) email. -/
theorem contact_success (cfg : Config) (req : ContactRequest)
    (data : VerificationData) (q : ℚ)
    (hn : jsTrim (req.name.getD "") ≠ "")
    (he : jsTrim (req.email.getD "") ≠ "")
    (hm : jsTrim (req.message.getD "") ≠ "")
    (hf : emailRegexTest (jsTrim (req.email.getD "")) = true)
    (hlen : (jsTrim (req.message.getD "")).length ≤ 2000)
    (hrecv : cfg.receiverEmail.getD "" ≠ "")
    (hkey : cfg.mailboxApiKey.getD "" ≠ "")
    (herr : data.error = false)
    (hfv : data.format_valid = true)
    (hmx : data.mx_found = true)
    (hq : data.score = some q)
    (hge : scoreThreshold ≤ q) :
    (handleContact cfg req (VerifyResult.success data) (Except.ok ())).response =
      ⟨200, true, "Message sent successfully!"⟩ ∧
    ∃ mo, (handleContact cfg req (VerifyResult.success data)
        (Except.ok ())).dispatched = some mo ∧
      mo.toAddr = cfg.receiverEmail.getD "" ∧
      mo.replyTo = jsTrim (req.email.getD "") := by
  have hcore :
      handleContact cfg req (VerifyResult.success data) (Except.ok ()) =
        ⟨⟨200, true, "Message sent successfully!"⟩, true,
          some
            { fromAddr := cfg.emailUser.getD ""
              toAddr := cfg.receiverEmail.getD ""
              replyTo := jsTrim (req.email.getD "")
              subject := "Portfolio Contact: Message from " ++ jsTrim (req.name.getD "")
              text := "You have received a new message from your portfolio contact form.\n\nName: "
                ++ jsTrim (req.name.getD "") ++ "\nUser Email: " ++ jsTrim (req.email.getD "")
                ++ "\n\nMessage:\n" ++ jsTrim (req.message.getD "")
              html := "<h3>New Portfolio Message</h3><p><strong>Name:</strong> "
                ++ jsTrim (req.name.getD "") ++ "</p><p><strong>Email:</strong> "
                ++ jsTrim (req.email.getD "")
                ++ "</p><p><strong>Message:</strong><br/>"
                ++ jsTrim (req.message.getD "") ++ "</p>" }⟩ := by
    simp only [handleContact]
    rw [if_neg (by simp [hn, he, hm]), if_neg (by simp [hf]),
      if_neg (by omega), if_neg hrecv, if_neg hkey,
      if_neg (by simp [herr]), if_neg (by simp [hfv, hmx]),
      if_neg (by simp [hq, scoreBelowThreshold, not_lt.2 hge])]
  rw [hcore]
  exact ⟨rfl, _, rfl, rfl, rfl⟩

/-- Witness for C1 at a concrete submission with score `9/10`. -/
theorem contact_success_witness :
    (handleContact ⟨some "r@x.co", some "k", some "u"⟩
        ⟨some "Ann", some " ann@example.com ", some "Hi"⟩
        (VerifyResult.success ⟨false, true, true, true, some (mkRat 9 10)⟩)
        (Except.ok ())).response =
      ⟨200, true, "Message sent successfully!"⟩ ∧
    ∃ mo, (handleContact ⟨some "r@x.co", some "k", some "u"⟩
        ⟨some "Ann", some " ann@example.com ", some "Hi"⟩
        (VerifyResult.success ⟨false, true, true, true, some (mkRat 9 10)⟩)
        (Except.ok ())).dispatched = some mo ∧
      mo.toAddr = "r@x.co" ∧ mo.replyTo = "ann@example.com" :=
  contact_success _ _ _ (mkRat 9 10) (by decide) (by decide) (by decide)
    (by decide) (by decide) (by decide) (by decide) rfl rfl rfl rfl (by decide)

/-- C3: for a valid, fully configured submission, the verification response
drives the outcome as follows: an error object yields status 500; otherwise
a false format-valid or mail-exchange flag yields status 400; otherwise a
score below the `0.3` threshold yields status 400; otherwise the pipeline
proceeds to dispatch. -/
theorem contact_verification_branches (cfg : Config) (req : ContactRequest)
    (data : VerificationData) (send : Except String Unit)
    (hn : jsTrim (req.name.getD "") ≠ "")
    (he : jsTrim (req.email.getD "") ≠ "")
    (hm : jsTrim (req.message.getD "") ≠ "")
    (hf : emailRegexTest (jsTrim (req.email.getD "")) = true)
    (hlen : (jsTrim (req.message.getD "")).length ≤ 2000)
    (hrecv : cfg.receiverEmail.getD "" ≠ "")
    (hkey : cfg.mailboxApiKey.getD "" ≠ "") :
    (data.error = true →
      (handleContact cfg req (VerifyResult.success data) send).response.status = 500) ∧
    (data.error = false → (data.format_valid && data.mx_found) = false →
      (handleContact cfg req (VerifyResult.success data) send).response.status = 400) ∧
    (∀ q : ℚ, data.error = false → data.format_valid = true → data.mx_found = true →
      data.score = some q → q < scoreThreshold →
      (handleContact cfg req (VerifyResult.success data) send).response.status = 400) ∧
    (data.error = false → data.format_valid = true → data.mx_found = true →
      scoreBelowThreshold data.score = false →
      (handleContact cfg req (VerifyResult.success data) send).dispatched.isSome = true) := by
  refine ⟨?_, ?_, ?_, ?_⟩
  · intro herr
    simp only [handleContact]
    rw [if_neg (by simp [hn, he, hm]), if_neg (by simp [hf]),
      if_neg (by omega), if_neg hrecv, if_neg hkey, if_pos herr]
  · intro herr hflags
    simp only [handleContact]
    rw [if_neg (by simp [hn, he, hm]), if_neg (by simp [hf]),
      if_neg (by omega), if_neg hrecv, if_neg hkey,
      if_neg (by simp [herr]), if_pos (by simp [hflags])]
  · intro q herr hfv hmx hq hlt
    simp only [handleContact]
    rw [if_neg (by simp [hn, he, hm]), if_neg (by simp [hf]),
      if_neg (by omega), if_neg hrecv, if_neg hkey,
      if_neg (by simp [herr]), if_neg (by simp [hfv, hmx]),
      if_pos (by simp [hq, scoreBelowThreshold, hlt])]
  · intro herr hfv hmx hsb
    simp only [handleContact]
    rw [if_neg (by simp [hn, he, hm]), if_neg (by simp [hf]),
      if_neg (by omega), if_neg hrecv, if_neg hkey,
      if_neg (by simp [herr]), if_neg (by simp [hfv, hmx]),
      if_neg (by simp [hsb])]
    cases send <;> rfl

/-- Witness for C3: each of the four branches exercised at a concrete
submission and concrete verification responses. -/
theorem contact_verification_branches_witness :
    (handleContact ⟨some "r@x.co", some "k", some "u"⟩
        ⟨some "Ann", some "ann@example.com", some "Hi"⟩
        (VerifyResult.success ⟨true, true, true, true, some (mkRat 9 10)⟩)
        (Except.ok ())).response.status = 500 ∧
    (handleContact ⟨some "r@x.co", some "k", some "u"⟩
        ⟨some "Ann", some "ann@example.com", some "Hi"⟩
        (VerifyResult.success ⟨false, true, false, true, some (mkRat 9 10)⟩)
        (Except.ok ())).response.status = 400 ∧
    (handleContact ⟨some "r@x.co", some "k", some "u"⟩
        ⟨some "Ann", some "ann@example.com", some "Hi"⟩
        (VerifyResult.success ⟨false, true, true, true, some (mkRat 1 10)⟩)
        (Except.ok ())).response.status = 400 ∧
    (handleContact ⟨some "r@x.co", some "k", some "u"⟩
        ⟨some "Ann", some "ann@example.com", some "Hi"⟩
        (VerifyResult.success ⟨false, true, true, true, some (mkRat 9 10)⟩)
        (Except.ok ())).dispatched.isSome = true :=
  ⟨(contact_verification_branches _ _ _ _ (by decide) (by decide) (by decide)
      (by decide) (by decide) (by decide) (by decide)).1 rfl,
   (contact_verification_branches _ _ _ _ (by decide) (by decide) (by decide)
      (by decide) (by decide) (by decide) (by decide)).2.1 rfl rfl,
   (contact_verification_branches _ _ _ _ (by decide) (by decide) (by decide)
      (by decide) (by decide) (by decide) (by decide)).2.2.1 (mkRat 1 10) rfl rfl
      rfl rfl (by decide),
   (contact_verification_branches _ _ _ _ (by decide) (by decide) (by decide)
      (by decide) (by decide) (by decide) (by decide)).2.2.2 rfl rfl rfl
      (by decide)⟩

/-- C9: `smtp_check` plays no part in the strict variant's decision: for a
valid, fully configured submission whose verification response has no error,
true format-valid and mail-exchange flags, and a score at least `0.3`, the
handler proceeds to dispatch even with `smtp_check` false; moreover the
handler's outcome is unchanged by replacing `smtp_check` with any value. -/
theorem contact_smtp_check_ignored (cfg : Config) (req : ContactRequest)
    (data : VerificationData) (send : Except String Unit) (q : ℚ)
    (hn : jsTrim (req.name.getD "") ≠ "")
    (he : jsTrim (req.email.getD "") ≠ "")
    (hm : jsTrim (req.message.getD "") ≠ "")
    (hf : emailRegexTest (jsTrim (req.email.getD "")) = true)
    (hlen : (jsTrim (req.message.getD "")).length ≤ 2000)
    (hrecv : cfg.receiverEmail.getD "" ≠ "")
    (hkey : cfg.mailboxApiKey.getD "" ≠ "")
    (herr : data.error = false)
    (hfv : data.format_valid = true)
    (hmx : data.mx_found = true)
    (hq : data.score = some q)
    (hge : scoreThreshold ≤ q)
    (hsmtp : data.smtp_check = false) :
    (handleContact cfg req (VerifyResult.success data) send).dispatched.isSome = true ∧
    ∀ b : Bool,
      handleContact cfg req (VerifyResult.success { data with smtp_check := b }) send =
        handleContact cfg req (VerifyResult.success data) send := by
  constructor
  · simp only [handleContact]
    rw [if_neg (by simp [hn, he, hm]), if_neg (by simp [hf]),
      if_neg (by omega), if_neg hrecv, if_neg hkey,
      if_neg (by simp [herr]), if_neg (by simp [hfv, hmx]),
      if_neg (by simp [hq, scoreBelowThreshold, not_lt.2 hge])]
    cases send <;> rfl
  · intro b
    cases data
    rfl

/-- Witness for C9 at a concrete submission with `smtp_check = false`. -/
theorem contact_smtp_check_ignored_witness :
    (handleContact ⟨some "r@x.co", some "k", some "u"⟩
        ⟨some "Ann", some "ann@example.com", some "Hi"⟩
        (VerifyResult.success ⟨false, true, true, false, some (mkRat 9 10)⟩)
        (Except.ok ())).dispatched.isSome = true ∧
    ∀ b : Bool,
      handleContact ⟨some "r@x.co", some "k", some "u"⟩
          ⟨some "Ann", some "ann@example.com", some "Hi"⟩
          (VerifyResult.success
            { (⟨false, true, true, false, some (mkRat 9 10)⟩ : VerificationData) with
                smtp_check := b })
          (Except.ok ()) =
        handleContact ⟨some "r@x.co", some "k", some "u"⟩
          ⟨some "Ann", some "ann@example.com", some "Hi"⟩
          (VerifyResult.success ⟨false, true, true, false, some (mkRat 9 10)⟩)
          (Except.ok ()) :=
  contact_smtp_check_ignored _ _ _ _ (mkRat 9 10) (by decide) (by decide)
    (by decide) (by decide) (by decide) (by decide) (by decide) rfl rfl rfl rfl
    (by decide) rfl

/-- C10: for a valid, fully configured submission whose verification response
has no error, true format-valid and mail-exchange flags, and no score field,
the score-threshold check does not reject (an absent score does not compare
below `0.3`) and the pipeline proceeds to dispatch. -/
theorem contact_absent_score_dispatches (cfg : Config) (req : ContactRequest)
    (data : VerificationData) (send : Except String Unit)
    (hn : jsTrim (req.name.getD "") ≠ "")
    (he : jsTrim (req.email.getD "") ≠ "")
    (hm : jsTrim (req.message.getD "") ≠ "")
    (hf : emailRegexTest (jsTrim (req.email.getD "")) = true)
    (hlen : (jsTrim (req.message.getD "")).length ≤ 2000)
    (hrecv : cfg.receiverEmail.getD "" ≠ "")
    (hkey : cfg.mailboxApiKey.getD "" ≠ "")
    (herr : data.error = false)
    (hfv : data.format_valid = true)
    (hmx : data.mx_found = true)
    (hq : data.score = none) :
    scoreBelowThreshold data.score = false ∧
    (handleContact cfg req (VerifyResult.success data) send).dispatched.isSome = true := by
  constructor
  · rw [hq]; rfl
  · simp only [handleContact]
    rw [if_neg (by simp [hn, he, hm]), if_neg (by simp [hf]),
      if_neg (by omega), if_neg hrecv, if_neg hkey,
      if_neg (by simp [herr]), if_neg (by simp [hfv, hmx]),
      if_neg (by simp [hq, scoreBelowThreshold])]
    cases send <;> rfl

/-- Witness for C10 at a concrete submission whose verification response
omits the score. -/
theorem contact_absent_score_dispatches_witness :
    scoreBelowThreshold (VerificationData.score ⟨false, true, true, true, none⟩) = false ∧
    (handleContact ⟨some "r@x.co", some "k", some "u"⟩
        ⟨some "Ann", some "ann@example.com", some "Hi"⟩
        (VerifyResult.success ⟨false, true, true, true, none⟩)
        (Except.ok ())).dispatched.isSome = true :=
  contact_absent_score_dispatches _ _ _ _ (by decide) (by decide) (by decide)
    (by decide) (by decide) (by decide) (by decide) rfl rfl rfl rfl

/-- C8: for one caller address, six requests arriving inside one 15-minute
window make the sixth request rate-limited: the first five pass and the
sixth receives the configured envelope regardless of payload; a further
request arriving once the window has elapsed is accepted again. -/
theorem contact_rate_limit (t1 t2 t3 t4 t5 t6 t7 : Nat) (cfg : Config)
    (req : ContactRequest) (verify : VerifyResult) (send : Except String Unit)
    (h2 : t2 < t1 + windowMs) (h3 : t3 < t1 + windowMs)
    (h4 : t4 < t1 + windowMs) (h5 : t5 < t1 + windowMs)
    (h6 : t6 < t1 + windowMs) (h7 : t1 + windowMs ≤ t7) :
    limiterRun none [t1, t2, t3, t4, t5, t6] =
      (some ⟨t1, 6⟩, [false, false, false, false, false, true]) ∧
    contactEndpoint ((limiterRun none [t1, t2, t3, t4, t5, t6]).2.getLastD false)
        cfg req verify send = ⟨429, rateLimitEnvelope⟩ ∧
    (limiterStep (some ⟨t1, 6⟩) t7).2 = false := by
  have e2 : ¬ (t1 + windowMs ≤ t2) := by omega
  have e3 : ¬ (t1 + windowMs ≤ t3) := by omega
  have e4 : ¬ (t1 + windowMs ≤ t4) := by omega
  have e5 : ¬ (t1 + windowMs ≤ t5) := by omega
  have e6 : ¬ (t1 + windowMs ≤ t6) := by omega
  have hrun : limiterRun none [t1, t2, t3, t4, t5, t6] =
      (some ⟨t1, 6⟩, [false, false, false, false, false, true]) := by
    simp [limiterRun, limiterStep, e2, e3, e4, e5, e6, maxRequests]
  refine ⟨hrun, ?_, ?_⟩
  · rw [hrun]
    rfl
  · simp [limiterStep, h7, maxRequests]

/-- Witness for C8: six requests at millisecond timestamps 0..5 and a
seventh at the end of the window. -/
theorem contact_rate_limit_witness :
    limiterRun none [0, 1, 2, 3, 4, 5] =
      (some ⟨0, 6⟩, [false, false, false, false, false, true]) ∧
    contactEndpoint ((limiterRun none [0, 1, 2, 3, 4, 5]).2.getLastD false)
        ⟨some "r@x.co", some "k", some "u"⟩
        ⟨some "Ann", some "ann@example.com", some "Hi"⟩ VerifyResult.failure
        (Except.ok ()) = ⟨429, rateLimitEnvelope⟩ ∧
    (limiterStep (some ⟨0, 6⟩) 900000).2 = false :=
  contact_rate_limit 0 1 2 3 4 5 900000 _ _ _ _ (by decide) (by decide)
    (by decide) (by decide) (by decide) (by decide)
